import Mathlib

/-!
Verification of the puppet provisioner plugin
(src/aminatorplugins/provisioner/puppet.py).

The embedding models the orchestration logic of `provision` as a pure
function from a configuration record plus a world of external observations
(filesystem tests, tar contents, command exit codes) to a trace of
side-effecting events and an outcome.  External collaborators
(monitor_command, Chroot, mkdir_p, shutil, tarfile) appear as events in the
trace; a Python exception is an `Except.error` outcome, and the guaranteed
chroot release of the `with` block is the trailing `exitChroot` event on
every path that entered the chroot.
-/

namespace Puppet

/-- Run mode decided by `_decide_puppet_run_mode`: the string self._puppet_run_mode,
either the literal apply or the literal master. -/
inductive RunMode
  | apply
  | master
deriving DecidableEq

/-- A command handed to `monitor_command`: either a shell string or an argv list. -/
inductive Cmd
  | shell (cmd : String)
  | argv (args : List String)
deriving DecidableEq

/-- The object `result.result` returned by monitor_command, of which the plugin
reads `status_code` and `std_err`. -/
structure PopenResult where
  status_code : Int
  std_out : String
  std_err : String
deriving DecidableEq

/-- One member of the manifests tar archive, as reported by `tar.getnames()`
(the name) together with whether the member is a directory. -/
structure TarEntry where
  name : String
  isDir : Bool
deriving DecidableEq

/-- Observable side effects of a provisioning run, in program order. -/
inductive Event
  | mkdirP (path : String)
  | copyFile (src dst : String)
  | copy2 (src dst : String)
  | extractAll (archive dest : String)
  | monitorCmd (c : Cmd)
  | yumCleanMetadata
  | envUpdate (pairs : List (String × String))
  | enterChroot (path : String)
  | exitChroot
  | rmtree (path : String)
deriving DecidableEq

/-- Python exceptions that the modelled code can raise: `ValueError` from
`dict()` on a segment that does not split into exactly two parts, and an
`OSError` from a failing `shutil.rmtree`. -/
inductive PyError
  | valueError
  | osError
deriving DecidableEq

/-- The recognized plugin options (section `plugins.puppet` of the config).
An unset option is the empty string, matching the falsy test in
`_get_config_value`. -/
structure PuppetConfig where
  puppet_args : String := ""
  puppet_env_vars : String := ""
  puppet_master : String := ""
  puppet_certs_dir : String := ""
  puppet_private_keys_dir : String := ""
  puppet_hieradata : String := ""
  puppet_install_cmd : String := ""
  puppet_hiera_install_cmd : String := ""
deriving DecidableEq

/-- The per-run inputs and external observations: context.package.arg, the
distro mountpoint and name, `socket.gethostname()`, the `os.access` tests,
the tarfile tests and contents, whether `shutil.rmtree` succeeds, and the
result each command produces when run. -/
structure World where
  packageArg : String
  mountpoint : String
  distroName : String
  hostname : String
  packageArgIsFile : Bool
  hostCertAccessible : Bool
  manifestsIsTarfile : Bool
  tarEntries : List TarEntry
  hieradataIsTarfile : Bool
  rmtreeOk : Bool
  cmdResult : Cmd → PopenResult

/-- Python `s.startswith(sep)` for the path separator, used by os.path.join. -/
def startsWithSlash (s : String) : Bool :=
  match s.data with
  | c :: _ => c = '/'
  | [] => false

/-- Python `s.endswith(sep)` for the path separator, used by os.path.join. -/
def endsWithSlash (s : String) : Bool :=
  match s.data.getLast? with
  | some c => c = '/'
  | none => false

/-- Python `os.path.join(a, b)` on POSIX: an absolute second component wins,
otherwise the components are glued with at most one separator. -/
def joinPath (a b : String) : String :=
  if startsWithSlash b then b
  else if a = "" then b
  else if endsWithSlash a then a ++ b
  else a ++ "/" ++ b

/-- Split a character list at every occurrence of `sep`, like Python
`str.split` with a one-character separator: always at least one piece, and
empty pieces are kept. -/
def splitOnChar (sep : Char) : List Char → List (List Char)
  | [] => [[]]
  | c :: rest =>
      let r := splitOnChar sep rest
      if c = sep then [] :: r
      else
        match r with
        | h :: t => (c :: h) :: t
        | [] => [[c]]

/-- Python `os.path.basename`: everything after the last separator. -/
def basename (s : String) : String :=
  String.mk (((splitOnChar '/' s.data).getLast?).getD s.data)

/-- Python `_get_config_value(name, default)`: the configured value when it is truthy
(a nonempty string), the default otherwise. -/
def getConfigValue (value default : String) : String :=
  if value = "" then default else value

/-- Whether the regular expression nonspace, equals sign, nonspace matches
somewhere in the string (the `search` on line 117). -/
def hasKVpattern : List Char → Bool
  | a :: b :: c :: rest =>
      (!a.isWhitespace && (b == '=') && !c.isWhitespace) || hasKVpattern (b :: c :: rest)
  | _ => false

/-- Consume at most one whitespace character (the optional whitespace after
the semicolon in the separator pattern of line 118). -/
def dropOneWs : List Char → List Char
  | c :: rest => if c.isWhitespace then rest else c :: rest
  | [] => []

/-- Regex split on an optional-whitespace, semicolon, optional-whitespace
separator, scanning left to right; `fuel` bounds the recursion and any
value at least the length of the text is enough. -/
def splitSemiAux : Nat → List Char → List Char → List (List Char)
  | _, [], acc => [acc.reverse]
  | 0, cs, acc => [acc.reverse ++ cs]
  | fuel + 1, ';' :: rest, acc =>
      acc.reverse :: splitSemiAux fuel (dropOneWs rest) []
  | fuel + 1, c :: rest, acc =>
      if c.isWhitespace then
        match rest with
        | ';' :: rest2 => acc.reverse :: splitSemiAux fuel (dropOneWs rest2) []
        | _ => splitSemiAux fuel rest (c :: acc)
      else splitSemiAux fuel rest (c :: acc)

/-- Model of `re.compile("\s?;\s?").split(spec)` of line 118. -/
def splitSemi (s : String) : List String :=
  (splitSemiAux s.data.length s.data []).map (fun l => String.mk l)

/-- Python `x.split('=')`: split on EVERY equals sign. -/
def splitEq (s : String) : List String :=
  (splitOnChar '=' s.data).map (fun l => String.mk l)

/-- One element of the `dict(...)` constructor argument: `x.split('=')` must
yield exactly a key and a value, anything else raises ValueError. -/
def toEnvPair (parts : List String) : Option (String × String) :=
  match parts with
  | [k, v] => some (k, v)
  | _ => none

/-- The parsed environment overrides of line 118:
`dict([x.split('=') for x in re.compile("\s?;\s?").split(spec)])`.
`none` models the ValueError raised by `dict` when some segment does not
split into exactly two parts.  (The later-key-wins deduplication of `dict`
is not modelled; the claims only concern specs with distinct keys.) -/
def parseEnvVars (s : String) : Option (List (String × String)) :=
  (splitSemi s).mapM (fun seg => toEnvPair (splitEq seg))

/-- The `puppet agent` command of line 288.  The source interpolates only the
certname and the master into the format string; the `puppet_args` parameter
is passed to `format` but has no placeholder, so it is dropped. -/
def puppet_agent (puppet_args certname puppet_master : String) : Cmd :=
  Cmd.shell ("puppet agent --detailed-exitcodes --no-daemonize --logdest console --onetime --certname "
    ++ certname ++ " --server " ++ puppet_master)

/-- The `puppet apply` command of line 291. -/
def puppet_apply (puppet_args puppet_apply_file : String) : Cmd :=
  Cmd.shell ("puppet apply --detailed-exitcodes --logdest console --debug --verbose "
    ++ puppet_args ++ " " ++ puppet_apply_file)

/-- The certificate-generation command of `generate_certificate` (line 295). -/
def generate_certificate_cmd (certname : String) : Cmd :=
  Cmd.argv ["puppetca", "generate", certname]

/-- The result a command run through `monitor_command` yields in world `w`. -/
def monitor_command (w : World) (c : Cmd) : PopenResult :=
  w.cmdResult c

/-- Model of `_decide_puppet_run_mode` (lines 253 to 259): apply when the package
argument is an existing local file, master otherwise. -/
def decide_puppet_run_mode (w : World) : RunMode :=
  if w.packageArgIsFile then RunMode.apply else RunMode.master

/-- Model of `_set_up_puppet_certs` (lines 179 to 195): make both directories under the
mountpoint, generate a certificate when the host-side certificate file is not
accessible, then copy the CA certificate, the host certificate and the host
private key from their host-side paths into the mountpoint directories. -/
def set_up_puppet_certs (cfg : PuppetConfig) (w : World) (pem_file_name : String) : List Event :=
  let certs_dir := getConfigValue cfg.puppet_certs_dir ""
  let private_keys_dir := getConfigValue cfg.puppet_private_keys_dir ""
  let cert := joinPath certs_dir (pem_file_name ++ ".pem")
  let key := joinPath private_keys_dir (pem_file_name ++ ".pem")
  [Event.mkdirP (w.mountpoint ++ certs_dir), Event.mkdirP (w.mountpoint ++ private_keys_dir)]
    ++ (if w.hostCertAccessible then []
        else [Event.monitorCmd (generate_certificate_cmd w.packageArg)])
    ++ [Event.copyFile (joinPath certs_dir "ca.pem") (w.mountpoint ++ certs_dir),
        Event.copyFile cert (w.mountpoint ++ certs_dir),
        Event.copyFile key (w.mountpoint ++ private_keys_dir)]

/-- Model of `_set_up_puppet_manifests` (lines 197 to 219).  Returns the event list and
the value assigned to `self._puppet_apply_file`: empty for a tar archive, the
in-image relative path of the copied file otherwise. -/
def set_up_puppet_manifests (w : World) (manifests : String) : List Event × String :=
  if w.manifestsIsTarfile then
    let dest_dir :=
      if (w.tarEntries.map TarEntry.name).contains "modules" then
        joinPath (joinPath w.mountpoint "etc") "puppet"
      else
        joinPath (joinPath (joinPath w.mountpoint "etc") "puppet") "modules"
    ([Event.mkdirP dest_dir, Event.extractAll manifests dest_dir], "")
  else
    let apply_file := joinPath (joinPath (joinPath "etc" "puppet") "modules") (basename manifests)
    let dest_file :=
      joinPath (joinPath (joinPath (joinPath w.mountpoint "etc") "puppet") "modules") (basename manifests)
    ([Event.mkdirP (joinPath (joinPath (joinPath w.mountpoint "etc") "puppet") "modules"),
      Event.copy2 manifests dest_file],
     apply_file)

/-- Model of `_set_up_hieradata` (lines 221 to 237): extract when the data archive is a
tarfile, otherwise only log a diagnostic. -/
def set_up_hieradata (w : World) (hieradata : String) : List Event :=
  if w.hieradataIsTarfile then
    let dest_dir := joinPath (joinPath w.mountpoint "etc") "puppet"
    [Event.mkdirP dest_dir, Event.extractAll hieradata dest_dir]
  else []

/-- Model of `_install_puppet` (lines 261 to 284).  Every command result returned by
`monitor_command` is discarded by the source, so only the executed commands
are recorded. -/
def install_puppet (cfg : PuppetConfig) (w : World) : List Event :=
  let puppet_install_cmd := getConfigValue cfg.puppet_install_cmd ""
  let installEvents :=
    if puppet_install_cmd ≠ "" then
      [Event.monitorCmd (Cmd.shell puppet_install_cmd)]
    else if w.distroName = "redhat" then
      [Event.yumCleanMetadata, Event.monitorCmd (Cmd.shell "yum --nogpgcheck -y install puppet")]
    else
      [Event.monitorCmd (Cmd.shell "apt-get update"), Event.monitorCmd (Cmd.shell "apt-get -y install puppet")]
  let puppet_hieradata := getConfigValue cfg.puppet_hieradata ""
  let hieraEvents :=
    if puppet_hieradata ≠ "" then
      let puppet_hiera_install_cmd := getConfigValue cfg.puppet_hiera_install_cmd ""
      if puppet_hiera_install_cmd ≠ "" then
        [Event.monitorCmd (Cmd.shell puppet_hiera_install_cmd)]
      else
        [Event.monitorCmd (Cmd.shell "gem install hiera")]
    else []
  installEvents ++ hieraEvents

/-- The two removals of `_rm_puppet_certs_dirs` (lines 239 to 241); the paths
are the configured directories, unprefixed, resolved inside the chroot. -/
def rm_puppet_certs_dirs_events (cfg : PuppetConfig) : List Event :=
  [Event.rmtree (getConfigValue cfg.puppet_certs_dir ""),
   Event.rmtree (getConfigValue cfg.puppet_private_keys_dir "")]

/-- Model of `_pre_chroot_block` (lines 158 to 171): stage certificates in master mode;
stage manifests, then optionally hieradata, in apply mode.  The second
component is `self._puppet_apply_file` (only ever assigned, and read, in
apply mode; the master value here is a dead placeholder). -/
def pre_chroot_block (cfg : PuppetConfig) (w : World) (mode : RunMode) : List Event × String :=
  match mode with
  | RunMode.master => (set_up_puppet_certs cfg w w.packageArg, "")
  | RunMode.apply =>
      let staged := set_up_puppet_manifests w w.packageArg
      let puppet_hieradata := getConfigValue cfg.puppet_hieradata ""
      if puppet_hieradata ≠ "" then
        (staged.1 ++ set_up_hieradata w puppet_hieradata, staged.2)
      else staged

/-- The test `result.result.status_code in [0, 2]` of line 149. -/
def inSuccessCodes (status_code : Int) : Bool :=
  [(0 : Int), 2].contains status_code

/-- The body of the `with Chroot` block (lines 126 to 151): install puppet,
run the agent command of the decided mode, in master mode remove the
certificate directories right after the run (a failing rmtree raises), then
classify the exit code into the boolean return value. -/
def chroot_block (cfg : PuppetConfig) (w : World) (mode : RunMode) (puppet_apply_file : String) :
    List Event × Except PyError Bool :=
  let installEvents := install_puppet cfg w
  let puppet_args := getConfigValue cfg.puppet_args ""
  match mode with
  | RunMode.master =>
      let cmd := puppet_agent puppet_args w.packageArg (getConfigValue cfg.puppet_master w.hostname)
      let result := monitor_command w cmd
      if w.rmtreeOk then
        (installEvents ++ [Event.monitorCmd cmd] ++ rm_puppet_certs_dirs_events cfg,
         if !(inSuccessCodes result.status_code) then Except.ok false else Except.ok true)
      else
        (installEvents ++ [Event.monitorCmd cmd]
           ++ [Event.rmtree (getConfigValue cfg.puppet_certs_dir "")],
         Except.error PyError.osError)
  | RunMode.apply =>
      let cmd := puppet_apply puppet_args puppet_apply_file
      let result := monitor_command w cmd
      (installEvents ++ [Event.monitorCmd cmd],
       if !(inSuccessCodes result.status_code) then Except.ok false else Except.ok true)

/-- The environment-update events of lines 117 to 123: one `envUpdate` when
the spec matches the key-value pattern and parses, nothing otherwise. -/
def envEventsOf (cfg : PuppetConfig) : List Event :=
  let env_spec := getConfigValue cfg.puppet_env_vars ""
  if hasKVpattern env_spec.data then
    match parseEnvVars env_spec with
    | some pairs => [Event.envUpdate pairs]
    | none => []
  else []

/-- Whether lines 117 to 123 complete without raising: either the pattern does
not match (block skipped) or the spec parses into pairs. -/
def envParseOk (cfg : PuppetConfig) : Bool :=
  !(hasKVpattern (getConfigValue cfg.puppet_env_vars "").data
      && (parseEnvVars (getConfigValue cfg.puppet_env_vars "")).isNone)

/-- Model of `provision` (lines 99 to 156): decide the mode, run the pre-chroot block,
merge the environment overrides (a malformed matching spec raises ValueError
there, before the chroot), then enter the chroot, install, run the agent,
and classify; the chroot is released on every path that entered it. -/
def provision (cfg : PuppetConfig) (w : World) : List Event × Except PyError Bool :=
  let mode := decide_puppet_run_mode w
  let pre := pre_chroot_block cfg w mode
  let env_spec := getConfigValue cfg.puppet_env_vars ""
  if hasKVpattern env_spec.data && (parseEnvVars env_spec).isNone then
    (pre.1, Except.error PyError.valueError)
  else
    let body := chroot_block cfg w mode pre.2
    (pre.1 ++ envEventsOf cfg ++ [Event.enterChroot w.mountpoint] ++ body.1 ++ [Event.exitChroot],
     body.2)

/-- The command the decided mode hands to `monitor_command` inside the chroot. -/
def agentCommand (cfg : PuppetConfig) (w : World) : Cmd :=
  match decide_puppet_run_mode w with
  | RunMode.master =>
      puppet_agent (getConfigValue cfg.puppet_args "") w.packageArg
        (getConfigValue cfg.puppet_master w.hostname)
  | RunMode.apply =>
      puppet_apply (getConfigValue cfg.puppet_args "")
        (pre_chroot_block cfg w RunMode.apply).2

/-- The events of whichever stager the decided mode selects. -/
def stagerEvents (cfg : PuppetConfig) (w : World) : List Event :=
  (pre_chroot_block cfg w (decide_puppet_run_mode w)).1

/-- Discriminator for the environment-merge event. -/
def Event.isEnvUpdate : Event → Bool
  | Event.envUpdate _ => true
  | _ => false

/-- Discriminator for the chroot-entry event. -/
def Event.isEnterChroot : Event → Bool
  | Event.enterChroot _ => true
  | _ => false

/-- Discriminator for the chroot-release event. -/
def Event.isExitChroot : Event → Bool
  | Event.exitChroot => true
  | _ => false

/-- Discriminator for directory-removal events. -/
def Event.isRmtree : Event → Bool
  | Event.rmtree _ => true
  | _ => false

/-- Events only the certificate stager emits (`shutil.copy`). -/
def isCertStagingEvent : Event → Bool
  | Event.copyFile _ _ => true
  | _ => false

/-- Events only the manifest or hieradata stager emits (`shutil.copy2` and
`tar.extractall`). -/
def isManifestStagingEvent : Event → Bool
  | Event.copy2 _ _ => true
  | Event.extractAll _ _ => true
  | _ => false

/-- Modelled from the claim wording of C4: each semicolon-delimited segment is
split ONCE on the first equals sign. -/
def parseEnvVarsSpec (s : String) : List (String × String) :=
  (splitSemi s).map (fun seg =>
    match splitOnChar '=' seg.data with
    | k :: rest => (String.mk k, String.mk (List.intercalate ['='] rest))
    | [] => ("", ""))

/-- Modelled from the claim wording of C8: the top-level entries of the
archive include a `modules` DIRECTORY. -/
def hasTopLevelModulesDir (entries : List TarEntry) : Bool :=
  entries.any (fun e => e.name == "modules" && e.isDir)

/-- Whether `pat` is a leading segment of `s` (character lists). -/
def hasPrefixChars : List Char → List Char → Bool
  | [], _ => true
  | _ :: _, [] => false
  | p :: ps, c :: cs => (p == c) && hasPrefixChars ps cs

/-- Whether `pat` occurs contiguously anywhere inside `s` (character lists). -/
def hasSubstring (pat s : List Char) : Bool :=
  match s with
  | [] => hasPrefixChars pat []
  | c :: rest => hasPrefixChars pat (c :: rest) || hasSubstring pat rest

/-- A command-result oracle where every command exits with the given code. -/
def constResult (code : Int) : Cmd → PopenResult :=
  fun _ => { status_code := code, std_out := "", std_err := "" }

/-- A concrete master-mode world: the package argument names no local file. -/
def masterWorld (res : Cmd → PopenResult) : World :=
  { packageArg := "node1", mountpoint := "/mnt", distroName := "redhat",
    hostname := "buildhost", packageArgIsFile := false, hostCertAccessible := true,
    manifestsIsTarfile := false, tarEntries := [], hieradataIsTarfile := false,
    rmtreeOk := true, cmdResult := res }

/-- A concrete apply-mode world: the package argument is a local single-file
manifest. -/
def applyWorld (res : Cmd → PopenResult) : World :=
  { packageArg := "foo.pp", mountpoint := "/mnt", distroName := "redhat",
    hostname := "buildhost", packageArgIsFile := true, hostCertAccessible := true,
    manifestsIsTarfile := false, tarEntries := [], hieradataIsTarfile := false,
    rmtreeOk := true, cmdResult := res }

/-- C1 inputs: default configuration, master mode, agent exit code 4. -/
def cfgC1 : PuppetConfig := {}

/-- C1 inputs: master-mode world whose agent exits 4. -/
def wC1 : World := masterWorld (constResult 4)

/-- C2 inputs: extra agent arguments and a master hostname are configured. -/
def cfgC2 : PuppetConfig :=
  { puppet_args := "--noop", puppet_master := "puppetmaster.example.com" }

/-- C2 inputs: master-mode world. -/
def wC2 : World := masterWorld (constResult 0)

/-- C3 and C10 inputs: certificate directories are configured. -/
def cfgC3 : PuppetConfig :=
  { puppet_certs_dir := "/var/lib/puppet/ssl/certs",
    puppet_private_keys_dir := "/var/lib/puppet/ssl/private_keys" }

/-- C3 inputs: master-mode world with a successful agent run. -/
def wC3 : World := masterWorld (constResult 0)

/-- C4 counterexample input: a segment with two equals signs. -/
def cfgC4 : PuppetConfig := { puppet_env_vars := "A=1=2" }

/-- C4 counterexample world (apply mode). -/
def wC4 : World := applyWorld (constResult 0)

/-- C4 witness input: the well-formed two-pair environment spec. -/
def cfgW4 : PuppetConfig := { puppet_env_vars := "A=1 ; B=2" }

/-- C4 witness world (apply mode). -/
def wW4 : World := applyWorld (constResult 0)

/-- C5 inputs: a custom install command is configured. -/
def cfgC5 : PuppetConfig := { puppet_install_cmd := "make install-puppet" }

/-- C5 inputs: master-mode world where the custom install command exits 1 and
every other command, the agent included, exits 0. -/
def wC5 : World := masterWorld
  (fun c => if c = Cmd.shell "make install-puppet" then
      { status_code := 1, std_out := "", std_err := "boom" }
    else { status_code := 0, std_out := "", std_err := "" })

/-- C5 witness oracle: agrees with wC5 on the agent command, differs
elsewhere. -/
def fC5 : Cmd → PopenResult :=
  fun c => if c = agentCommand cfgC5 wC5 then wC5.cmdResult c
    else { status_code := 7, std_out := "", std_err := "" }

/-- C6 witness configuration. -/
def cfgC6 : PuppetConfig := {}

/-- C6 witness world (master mode). -/
def wC6 : World := masterWorld (constResult 2)

/-- C7 witness world: apply mode with the single-file manifest foo.pp. -/
def wC7 : World := applyWorld (constResult 2)

/-- C8 counterexample world: the archive holds one top-level REGULAR FILE
named modules, no modules directory. -/
def wC8 : World :=
  { packageArg := "modfile.tgz", mountpoint := "/mnt", distroName := "redhat",
    hostname := "buildhost", packageArgIsFile := true, hostCertAccessible := true,
    manifestsIsTarfile := true, tarEntries := [{ name := "modules", isDir := false }],
    hieradataIsTarfile := false, rmtreeOk := true, cmdResult := constResult 0 }

/-- C8 witness world: archive without a top-level modules entry. -/
def wW8 : World :=
  { packageArg := "manifests.tgz", mountpoint := "/mnt", distroName := "redhat",
    hostname := "buildhost", packageArgIsFile := true, hostCertAccessible := true,
    manifestsIsTarfile := true,
    tarEntries := [{ name := "manifests/site.pp", isDir := false }],
    hieradataIsTarfile := false, rmtreeOk := true, cmdResult := constResult 0 }

/-- C9 inputs: certificate directories configured. -/
def cfgC9 : PuppetConfig :=
  { puppet_certs_dir := "/var/lib/puppet/ssl/certs",
    puppet_private_keys_dir := "/var/lib/puppet/ssl/private_keys" }

/-- C9 witness world: master mode, the host certificate is NOT accessible, so
generation must run. -/
def wC9 : World :=
  { packageArg := "node1", mountpoint := "/mnt", distroName := "redhat",
    hostname := "buildhost", packageArgIsFile := false, hostCertAccessible := false,
    manifestsIsTarfile := false, tarEntries := [], hieradataIsTarfile := false,
    rmtreeOk := true, cmdResult := constResult 0 }

/-- C10 witness world: master mode with agent exit code 4 (FAILURE class). -/
def wC10 : World := masterWorld (constResult 4)

/-- Helper: the classification expression of line 149 as a function of the
boolean test. -/
lemma classify_eq (b : Bool) :
    (if !b then (Except.ok false : Except PyError Bool) else Except.ok true) = Except.ok b := by
  cases b <;> rfl

/-- Helper: variant of `classify_eq` in the shape simp produces. -/
lemma classify_eq2 (b : Bool) :
    (if b = false then (Except.ok false : Except PyError Bool) else Except.ok true) = Except.ok b := by
  cases b <;> rfl

/-- Helper: outcome of the chroot body in master mode. -/
lemma chroot_block_snd_master (cfg : PuppetConfig) (w : World) (apf : String) :
    (chroot_block cfg w RunMode.master apf).2 =
      if w.rmtreeOk then
        Except.ok (inSuccessCodes (monitor_command w
          (puppet_agent (getConfigValue cfg.puppet_args "") w.packageArg
            (getConfigValue cfg.puppet_master w.hostname))).status_code)
      else Except.error PyError.osError := by
  unfold chroot_block
  cases hrm : w.rmtreeOk <;> simp [hrm, classify_eq, classify_eq2]

/-- Helper: outcome of the chroot body in apply mode. -/
lemma chroot_block_snd_apply (cfg : PuppetConfig) (w : World) (apf : String) :
    (chroot_block cfg w RunMode.apply apf).2 =
      Except.ok (inSuccessCodes (monitor_command w
        (puppet_apply (getConfigValue cfg.puppet_args "") apf)).status_code) := by
  unfold chroot_block
  simp [classify_eq, classify_eq2]

/-- Helper: the classification test of line 149 accepts exactly 0 and 2. -/
lemma inSuccessCodes_iff (c : Int) : inSuccessCodes c = true ↔ (c = 0 ∨ c = 2) := by
  unfold inSuccessCodes
  simp [List.contains]

/-- Helper: shape of a provisioning run whose environment block does not raise. -/
lemma provision_of_envOk (cfg : PuppetConfig) (w : World) (henv : envParseOk cfg = true) :
    provision cfg w =
      ((pre_chroot_block cfg w (decide_puppet_run_mode w)).1
         ++ envEventsOf cfg ++ [Event.enterChroot w.mountpoint]
         ++ (chroot_block cfg w (decide_puppet_run_mode w)
               (pre_chroot_block cfg w (decide_puppet_run_mode w)).2).1
         ++ [Event.exitChroot],
       (chroot_block cfg w (decide_puppet_run_mode w)
          (pre_chroot_block cfg w (decide_puppet_run_mode w)).2).2) := by
  have h : (hasKVpattern (getConfigValue cfg.puppet_env_vars "").data
      && (parseEnvVars (getConfigValue cfg.puppet_env_vars "")).isNone) = false := by
    unfold envParseOk at henv
    cases hx : (hasKVpattern (getConfigValue cfg.puppet_env_vars "").data
        && (parseEnvVars (getConfigValue cfg.puppet_env_vars "")).isNone)
    · rfl
    · rw [hx] at henv
      exact absurd henv (by simp)
  unfold provision
  simp [h]

/-- Helper: shape of a provisioning run whose environment block raises. -/
lemma provision_of_envBad (cfg : PuppetConfig) (w : World) (henv : envParseOk cfg = false) :
    provision cfg w =
      ((pre_chroot_block cfg w (decide_puppet_run_mode w)).1, Except.error PyError.valueError) := by
  have h : (hasKVpattern (getConfigValue cfg.puppet_env_vars "").data
      && (parseEnvVars (getConfigValue cfg.puppet_env_vars "")).isNone) = true := by
    unfold envParseOk at henv
    cases hx : (hasKVpattern (getConfigValue cfg.puppet_env_vars "").data
        && (parseEnvVars (getConfigValue cfg.puppet_env_vars "")).isNone)
    · rw [hx] at henv
      exact absurd henv (by simp)
    · rfl
  unfold provision
  simp [h]

/-- Helper: the agent command in master mode. -/
lemma agentCommand_master (cfg : PuppetConfig) (w : World)
    (hm : decide_puppet_run_mode w = RunMode.master) :
    agentCommand cfg w =
      puppet_agent (getConfigValue cfg.puppet_args "") w.packageArg
        (getConfigValue cfg.puppet_master w.hostname) := by
  unfold agentCommand
  rw [hm]

/-- Helper: the agent command in apply mode. -/
lemma agentCommand_apply (cfg : PuppetConfig) (w : World)
    (hm : decide_puppet_run_mode w = RunMode.apply) :
    agentCommand cfg w =
      puppet_apply (getConfigValue cfg.puppet_args "")
        (pre_chroot_block cfg w RunMode.apply).2 := by
  unfold agentCommand
  rw [hm]

/-- Helper: the outcome of every provisioning run, as a function of the
environment block, the mode, the rmtree success and the agent exit code. -/
lemma provision_snd (cfg : PuppetConfig) (w : World) :
    (provision cfg w).2 =
      if envParseOk cfg = true then
        if decide_puppet_run_mode w = RunMode.master ∧ w.rmtreeOk = false then
          Except.error PyError.osError
        else
          Except.ok (inSuccessCodes (monitor_command w (agentCommand cfg w)).status_code)
      else Except.error PyError.valueError := by
  cases henv : envParseOk cfg
  · simp [provision_of_envBad cfg w henv]
  · rw [provision_of_envOk cfg w henv]
    cases hm : decide_puppet_run_mode w
    · rw [agentCommand_apply cfg w hm]
      simp [hm, chroot_block_snd_apply]
    · rw [agentCommand_master cfg w hm]
      cases hrm : w.rmtreeOk <;>
        simp [hm, hrm, chroot_block_snd_master]

/-- Helper: events of the chroot body in master mode. -/
lemma chroot_block_fst_master (cfg : PuppetConfig) (w : World) (apf : String) :
    (chroot_block cfg w RunMode.master apf).1 =
      install_puppet cfg w
        ++ [Event.monitorCmd (puppet_agent (getConfigValue cfg.puppet_args "") w.packageArg
              (getConfigValue cfg.puppet_master w.hostname))]
        ++ (if w.rmtreeOk then rm_puppet_certs_dirs_events cfg
            else [Event.rmtree (getConfigValue cfg.puppet_certs_dir "")]) := by
  unfold chroot_block
  cases hrm : w.rmtreeOk <;> simp [hrm]

/-- Helper: events of the chroot body in apply mode. -/
lemma chroot_block_fst_apply (cfg : PuppetConfig) (w : World) (apf : String) :
    (chroot_block cfg w RunMode.apply apf).1 =
      install_puppet cfg w
        ++ [Event.monitorCmd (puppet_apply (getConfigValue cfg.puppet_args "") apf)] := by
  unfold chroot_block
  simp

/-- Helper: every certificate-stager event is a mkdir, a monitored command or
a copy. -/
lemma all_set_up_puppet_certs (cfg : PuppetConfig) (w : World) (p : String) (P : Event → Bool)
    (h1 : ∀ s, P (Event.mkdirP s) = true)
    (h2 : ∀ c, P (Event.monitorCmd c) = true)
    (h3 : ∀ s t, P (Event.copyFile s t) = true) :
    (set_up_puppet_certs cfg w p).all P = true := by
  unfold set_up_puppet_certs
  cases w.hostCertAccessible <;> simp [h1, h2, h3]

/-- Helper: every manifest-stager event is a mkdir, a copy2 or an extraction. -/
lemma all_set_up_puppet_manifests (w : World) (m : String) (P : Event → Bool)
    (h1 : ∀ s, P (Event.mkdirP s) = true)
    (h4 : ∀ s t, P (Event.copy2 s t) = true)
    (h5 : ∀ s t, P (Event.extractAll s t) = true) :
    ((set_up_puppet_manifests w m).1).all P = true := by
  unfold set_up_puppet_manifests
  cases w.manifestsIsTarfile <;> simp [h1, h4, h5]

/-- Helper: every hieradata-stager event is a mkdir or an extraction. -/
lemma all_set_up_hieradata (w : World) (hd : String) (P : Event → Bool)
    (h1 : ∀ s, P (Event.mkdirP s) = true)
    (h5 : ∀ s t, P (Event.extractAll s t) = true) :
    (set_up_hieradata w hd).all P = true := by
  unfold set_up_hieradata
  cases w.hieradataIsTarfile <;> simp [h1, h5]

/-- Helper: every installer event is a monitored command or the yum metadata
refresh. -/
lemma all_install_puppet (cfg : PuppetConfig) (w : World) (P : Event → Bool)
    (h2 : ∀ c, P (Event.monitorCmd c) = true)
    (hy : P Event.yumCleanMetadata = true) :
    (install_puppet cfg w).all P = true := by
  unfold install_puppet
  by_cases hA : getConfigValue cfg.puppet_install_cmd "" = "" <;>
    by_cases hB : w.distroName = "redhat" <;>
      by_cases hC : getConfigValue cfg.puppet_hieradata "" = "" <;>
        by_cases hD : getConfigValue cfg.puppet_hiera_install_cmd "" = "" <;>
          simp [hA, hB, hC, hD, h2, hy]

/-- Helper: every pre-chroot event is a staging event. -/
lemma all_pre_chroot_block (cfg : PuppetConfig) (w : World) (mode : RunMode) (P : Event → Bool)
    (h1 : ∀ s, P (Event.mkdirP s) = true)
    (h2 : ∀ c, P (Event.monitorCmd c) = true)
    (h3 : ∀ s t, P (Event.copyFile s t) = true)
    (h4 : ∀ s t, P (Event.copy2 s t) = true)
    (h5 : ∀ s t, P (Event.extractAll s t) = true) :
    ((pre_chroot_block cfg w mode).1).all P = true := by
  cases mode
  · unfold pre_chroot_block
    by_cases hC : getConfigValue cfg.puppet_hieradata "" = "" <;>
      simp [hC, all_set_up_puppet_manifests w w.packageArg P h1 h4 h5,
        all_set_up_hieradata w _ P h1 h5]
  · unfold pre_chroot_block
    simp [all_set_up_puppet_certs cfg w w.packageArg P h1 h2 h3]

/-- Helper: the cleanup events are removals. -/
lemma all_rm_events (cfg : PuppetConfig) (P : Event → Bool)
    (h : ∀ s, P (Event.rmtree s) = true) :
    (rm_puppet_certs_dirs_events cfg).all P = true := by
  simp [rm_puppet_certs_dirs_events, h]

/-- Helper: the environment block emits only environment updates. -/
lemma all_envEventsOf (cfg : PuppetConfig) (P : Event → Bool)
    (h : ∀ ps, P (Event.envUpdate ps) = true) :
    (envEventsOf cfg).all P = true := by
  unfold envEventsOf
  by_cases hkv : hasKVpattern (getConfigValue cfg.puppet_env_vars "").data <;> simp [hkv]
  cases hp : parseEnvVars (getConfigValue cfg.puppet_env_vars "") <;> simp [h]

/-- Helper: a nonempty string has a nonempty character list. -/
lemma string_data_ne_nil (s : String) (h : s ≠ "") : s.data ≠ [] := by
  intro hd
  exact h (String.ext hd)

/-- Helper: appending a nonempty string gives a nonempty string. -/
lemma append_ne_empty_right (a b : String) (hb : b ≠ "") : a ++ b ≠ "" := by
  intro h
  apply hb
  have hd := congrArg String.data h
  simp only [String.data_append] at hd
  rcases List.append_eq_nil.mp hd with ⟨_, h2⟩
  exact String.ext h2

/-- Helper: the trailing character of an append with nonempty second part. -/
lemma endsWithSlash_append (a b : String) (hb : b ≠ "") :
    endsWithSlash (a ++ b) = endsWithSlash b := by
  unfold endsWithSlash
  rw [String.data_append, List.getLast?_append_of_ne_nil _ (string_data_ne_nil b hb)]

/-- Helper: the leading character of an append with nonempty first part. -/
lemma startsWithSlash_append (a b : String) (ha : a ≠ "") :
    startsWithSlash (a ++ b) = startsWithSlash a := by
  unfold startsWithSlash
  rw [String.data_append]
  cases hd : a.data with
  | nil => exact absurd hd (string_data_ne_nil a ha)
  | cons c t => simp

/-- Helper: the generic branch of os.path.join. -/
lemma joinPath_cons (a b : String) (hb : startsWithSlash b = false) (ha0 : a ≠ "")
    (ha1 : endsWithSlash a = false) : joinPath a b = a ++ "/" ++ b := by
  unfold joinPath
  simp [hb, ha0, ha1]

/-- Helper: merge two literal append operands. -/
lemma append_lit_merge (a b c d : String) (h : b ++ c = d) : a ++ b ++ c = a ++ d := by
  rw [String.append_assoc, h]

/-- Helper: the mountpoint joined with etc, puppet, modules. -/
lemma join_mp3 (mp : String) (h0 : mp ≠ "") (h1 : endsWithSlash mp = false) :
    joinPath (joinPath (joinPath mp "etc") "puppet") "modules" = mp ++ "/etc/puppet/modules" := by
  rw [joinPath_cons mp "etc" rfl h0 h1, append_lit_merge mp "/" "etc" "/etc" rfl]
  have h0b : mp ++ "/etc" ≠ "" := append_ne_empty_right mp "/etc" (by decide)
  have h1b : endsWithSlash (mp ++ "/etc") = false := by
    rw [endsWithSlash_append mp "/etc" (by decide)]
    rfl
  rw [joinPath_cons _ "puppet" rfl h0b h1b,
    append_lit_merge (mp ++ "/etc") "/" "puppet" "/puppet" rfl,
    append_lit_merge mp "/etc" "/puppet" "/etc/puppet" rfl]
  have h0c : mp ++ "/etc/puppet" ≠ "" := append_ne_empty_right mp "/etc/puppet" (by decide)
  have h1c : endsWithSlash (mp ++ "/etc/puppet") = false := by
    rw [endsWithSlash_append mp "/etc/puppet" (by decide)]
    rfl
  rw [joinPath_cons _ "modules" rfl h0c h1c,
    append_lit_merge (mp ++ "/etc/puppet") "/" "modules" "/modules" rfl,
    append_lit_merge mp "/etc/puppet" "/modules" "/etc/puppet/modules" rfl]

/-- Helper: the mountpoint joined with etc, puppet. -/
lemma join_mp2 (mp : String) (h0 : mp ≠ "") (h1 : endsWithSlash mp = false) :
    joinPath (joinPath mp "etc") "puppet" = mp ++ "/etc/puppet" := by
  rw [joinPath_cons mp "etc" rfl h0 h1, append_lit_merge mp "/" "etc" "/etc" rfl]
  have h0b : mp ++ "/etc" ≠ "" := append_ne_empty_right mp "/etc" (by decide)
  have h1b : endsWithSlash (mp ++ "/etc") = false := by
    rw [endsWithSlash_append mp "/etc" (by decide)]
    rfl
  rw [joinPath_cons _ "puppet" rfl h0b h1b,
    append_lit_merge (mp ++ "/etc") "/" "puppet" "/puppet" rfl,
    append_lit_merge mp "/etc" "/puppet" "/etc/puppet" rfl]

/-- Helper: the modules directory under the mountpoint joined with a plain
file name. -/
lemma join_mp3_base (mp b : String) (h0 : mp ≠ "") (h1 : endsWithSlash mp = false)
    (hb : startsWithSlash b = false) :
    joinPath (joinPath (joinPath (joinPath mp "etc") "puppet") "modules") b
      = mp ++ "/etc/puppet/modules/" ++ b := by
  rw [join_mp3 mp h0 h1]
  have hne : mp ++ "/etc/puppet/modules" ≠ "" :=
    append_ne_empty_right mp "/etc/puppet/modules" (by decide)
  have hes : endsWithSlash (mp ++ "/etc/puppet/modules") = false := by
    rw [endsWithSlash_append mp "/etc/puppet/modules" (by decide)]
    rfl
  rw [joinPath_cons _ b hb hne hes,
    append_lit_merge mp "/etc/puppet/modules" "/" "/etc/puppet/modules/" rfl]

/-- Helper: the in-image relative modules path joined with a plain file name. -/
lemma join_rel_base (b : String) (hb : startsWithSlash b = false) :
    joinPath (joinPath (joinPath "etc" "puppet") "modules") b
      = "etc/puppet/modules/" ++ b := by
  rw [joinPath_cons (joinPath (joinPath "etc" "puppet") "modules") b hb (by decide) (by decide)]
  rfl

/-- Helper: a string without an equals sign cannot match the key-value
pattern. -/
lemma hasKVpattern_no_eq : ∀ l : List Char, '=' ∉ l → hasKVpattern l = false
  | [], _ => rfl
  | [_], _ => rfl
  | [_, _], _ => rfl
  | a :: b :: c :: rest, h => by
      have hbne : b ≠ '=' := by
        intro hbe
        exact h (by simp [hbe])
      have hrec : hasKVpattern (b :: c :: rest) = false :=
        hasKVpattern_no_eq (b :: c :: rest) (fun hm => h (List.mem_cons_of_mem a hm))
      unfold hasKVpattern
      simp [hbne, hrec]


/-- C1: for every agent run, the exit code is classified as SUCCESS if and
only if it is 0 or 2 (any other code, notably 4 and 6, is FAILURE), and
provision returns true exactly when the classification is SUCCESS, returning
false otherwise. -/
theorem C1_exit_code_classification :
    (∀ c : Int, inSuccessCodes c = true ↔ (c = 0 ∨ c = 2)) ∧
    (∀ (cfg : PuppetConfig) (w : World) (b : Bool),
      (provision cfg w).2 = Except.ok b →
      (b = true ↔
        inSuccessCodes (monitor_command w (agentCommand cfg w)).status_code = true)) := by
  refine ⟨inSuccessCodes_iff, ?_⟩
  intro cfg w b h
  rw [provision_snd] at h
  by_cases henv : envParseOk cfg = true
  · rw [if_pos henv] at h
    by_cases hmr : decide_puppet_run_mode w = RunMode.master ∧ w.rmtreeOk = false
    · rw [if_pos hmr] at h
      exact absurd h (by simp)
    · rw [if_neg hmr] at h
      have hb := Except.ok.inj h
      rw [← hb]
  · rw [if_neg henv] at h
    exact absurd h (by simp)

/-- C1 witness: code 2 is SUCCESS, and the concrete master run whose agent
exits 4 returns false because the classification is FAILURE. -/
theorem C1_exit_code_classification_witness :
    (inSuccessCodes 2 = true ↔ ((2 : Int) = 0 ∨ (2 : Int) = 2)) ∧
    (false = true ↔
      inSuccessCodes (monitor_command wC1 (agentCommand cfgC1 wC1)).status_code = true) :=
  ⟨C1_exit_code_classification.1 2,
   C1_exit_code_classification.2 cfgC1 wC1 false (by rfl)⟩

/-- C2: in master mode the single agent command run inside the scope is
one-shot, non-daemonized, with detailed exit codes, logging to the console,
and carries the certificate name and the master host; but the extra
configured agent arguments are NOT included: the source format string has no
placeholder for them, so with puppet_args configured the executed command
omits them.  This exhibits the divergence at a concrete input. -/
theorem C2_agent_args_dropped :
    agentCommand cfgC2 wC2 = Cmd.shell
      "puppet agent --detailed-exitcodes --no-daemonize --logdest console --onetime --certname node1 --server puppetmaster.example.com" ∧
    Event.monitorCmd (agentCommand cfgC2 wC2) ∈ (provision cfgC2 wC2).1 ∧
    (∀ flag ∈ ["--detailed-exitcodes", "--no-daemonize", "--logdest console", "--onetime",
               "--certname node1", "--server puppetmaster.example.com"],
      hasSubstring flag.data
        "puppet agent --detailed-exitcodes --no-daemonize --logdest console --onetime --certname node1 --server puppetmaster.example.com".data = true) ∧
    getConfigValue cfgC2.puppet_args "" = "--noop" ∧
    hasSubstring "--noop".data
      "puppet agent --detailed-exitcodes --no-daemonize --logdest console --onetime --certname node1 --server puppetmaster.example.com".data = false := by
  refine ⟨by rfl, by decide, ?_, by rfl, by decide⟩
  decide

/-- Helper: every chroot-body event is a monitored command, the yum refresh
or a removal. -/
lemma all_chroot_block (cfg : PuppetConfig) (w : World) (mode : RunMode) (apf : String)
    (P : Event → Bool)
    (h2 : ∀ c, P (Event.monitorCmd c) = true)
    (hy : P Event.yumCleanMetadata = true)
    (hr : ∀ s, P (Event.rmtree s) = true) :
    ((chroot_block cfg w mode apf).1).all P = true := by
  cases mode
  · rw [chroot_block_fst_apply]
    simp [List.all_append, all_install_puppet cfg w P h2 hy, h2]
  · rw [chroot_block_fst_master]
    cases hrm : w.rmtreeOk <;>
      simp [hrm, List.all_append, all_install_puppet cfg w P h2 hy, h2, hr,
        all_rm_events cfg P hr]

/-- Helper: the pre-chroot block never emits an environment update. -/
lemma not_env_mem_pre (cfg : PuppetConfig) (w : World) (mode : RunMode)
    (pairs : List (String × String)) :
    Event.envUpdate pairs ∉ (pre_chroot_block cfg w mode).1 := by
  intro hm
  have hall := all_pre_chroot_block cfg w mode (fun e => !(e.isEnvUpdate))
    (fun s => rfl) (fun c => rfl) (fun s t => rfl) (fun s t => rfl) (fun s t => rfl)
  rw [List.all_eq_true] at hall
  simpa [Event.isEnvUpdate] using hall _ hm

/-- Helper: the chroot body never emits an environment update. -/
lemma not_env_mem_chroot (cfg : PuppetConfig) (w : World) (mode : RunMode) (apf : String)
    (pairs : List (String × String)) :
    Event.envUpdate pairs ∉ (chroot_block cfg w mode apf).1 := by
  intro hm
  have hall := all_chroot_block cfg w mode apf (fun e => !(e.isEnvUpdate))
    (fun c => rfl) rfl (fun s => rfl)
  rw [List.all_eq_true] at hall
  simpa [Event.isEnvUpdate] using hall _ hm

/-- C4 counterexample: the spec A=1=2 matches the key-value pattern, and under
the split-once reading of the claim it would merge the single pair A to 1=2;
but the source splits on every equals sign and `dict` then raises ValueError:
provision aborts with the error and no environment update happens. -/
theorem C4_counterexample :
    parseEnvVarsSpec "A=1=2" = [("A", "1=2")] ∧
    hasKVpattern "A=1=2".data = true ∧
    parseEnvVars "A=1=2" = none ∧
    (provision cfgC4 wC4).2 = Except.error PyError.valueError ∧
    ((provision cfgC4 wC4).1.all (fun e => !(e.isEnvUpdate))) = true := by
  refine ⟨by rfl, by rfl, by rfl, by rfl, by decide⟩

/-- C4 (amended): a spec containing a key=value pattern is split into
semicolon-delimited segments, each segment is split on EVERY equals sign (a
segment without exactly one equals sign raises ValueError instead of
merging); for the spec A=1 ; B=2 exactly the pairs A to 1 and B to 2 are
merged into the process environment before entering the isolated scope, and
a malformed spec containing no equals sign leaves the environment
unchanged. -/
theorem C4_env_var_merge :
    parseEnvVars "A=1 ; B=2" = some [("A", "1"), ("B", "2")] ∧
    (∀ (cfg : PuppetConfig) (w : World),
      '=' ∉ (getConfigValue cfg.puppet_env_vars "").data →
      ((provision cfg w).1.all (fun e => !(e.isEnvUpdate))) = true) ∧
    (∀ (cfg : PuppetConfig) (w : World) (pairs : List (String × String)),
      Event.envUpdate pairs ∈ (provision cfg w).1 →
      parseEnvVars (getConfigValue cfg.puppet_env_vars "") = some pairs ∧
      ∃ pre rest, (provision cfg w).1
        = pre ++ Event.envUpdate pairs :: Event.enterChroot w.mountpoint :: rest) := by
  refine ⟨by rfl, ?_, ?_⟩
  · intro cfg w hne
    have hkv : hasKVpattern (getConfigValue cfg.puppet_env_vars "").data = false :=
      hasKVpattern_no_eq _ hne
    have henv : envParseOk cfg = true := by
      unfold envParseOk
      rw [hkv]
      rfl
    have hee : envEventsOf cfg = [] := by
      unfold envEventsOf
      simp [hkv]
    rw [provision_of_envOk cfg w henv]
    rw [hee, List.append_nil, List.all_append, List.all_append, List.all_append]
    rw [Bool.and_eq_true, Bool.and_eq_true, Bool.and_eq_true]
    refine ⟨⟨⟨?_, ?_⟩, ?_⟩, ?_⟩
    · exact all_pre_chroot_block cfg w _ (fun e => !(e.isEnvUpdate))
        (fun s => rfl) (fun c => rfl) (fun s t => rfl) (fun s t => rfl) (fun s t => rfl)
    · rfl
    · exact all_chroot_block cfg w _ _ (fun e => !(e.isEnvUpdate))
        (fun c => rfl) rfl (fun s => rfl)
    · rfl
  · intro cfg w pairs hmem
    by_cases henv : envParseOk cfg = true
    · rw [provision_of_envOk cfg w henv] at hmem ⊢
      have hkv_cases : envEventsOf cfg = [] ∨
          ∃ ps, parseEnvVars (getConfigValue cfg.puppet_env_vars "") = some ps ∧
            envEventsOf cfg = [Event.envUpdate ps] := by
        unfold envEventsOf
        by_cases hkv : hasKVpattern (getConfigValue cfg.puppet_env_vars "").data
        · cases hp : parseEnvVars (getConfigValue cfg.puppet_env_vars "")
          · left
            simp [hkv, hp]
          · right
            exact ⟨_, rfl, by simp [hkv, hp]⟩
        · left
          simp [hkv]
      rcases hkv_cases with hee | ⟨ps, hps, hee⟩
      · rw [hee] at hmem
        simp only [List.append_nil, List.mem_append, List.mem_singleton] at hmem
        rcases hmem with ((h | h) | h) | h
        · exact absurd h (not_env_mem_pre cfg w _ pairs)
        · exact absurd h (by simp)
        · exact absurd h (not_env_mem_chroot cfg w _ _ pairs)
        · exact absurd h (by simp)
      · rw [hee] at hmem ⊢
        simp only [List.mem_append, List.mem_singleton] at hmem
        rcases hmem with (((h | h) | h) | h) | h
        · exact absurd h (not_env_mem_pre cfg w _ pairs)
        · have hpp : pairs = ps := by
            simpa using h
          subst hpp
          refine ⟨hps, ⟨(pre_chroot_block cfg w (decide_puppet_run_mode w)).1,
            (chroot_block cfg w (decide_puppet_run_mode w)
              (pre_chroot_block cfg w (decide_puppet_run_mode w)).2).1 ++ [Event.exitChroot], ?_⟩⟩
          simp
        · exact absurd h (by simp)
        · exact absurd h (not_env_mem_chroot cfg w _ _ pairs)
        · exact absurd h (by simp)
    · have henv2 : envParseOk cfg = false := by
        cases h : envParseOk cfg
        · rfl
        · exact absurd h henv
      rw [provision_of_envBad cfg w henv2] at hmem
      exact absurd hmem (not_env_mem_pre cfg w _ pairs)

/-- C4 witness: with the spec A=1 ; B=2 the run merges exactly those two
pairs, and the update event immediately precedes the chroot entry. -/
theorem C4_env_var_merge_witness :
    parseEnvVars (getConfigValue cfgW4.puppet_env_vars "") = some [("A", "1"), ("B", "2")] ∧
    ∃ pre rest, (provision cfgW4 wW4).1
      = pre ++ Event.envUpdate [("A", "1"), ("B", "2")]
          :: Event.enterChroot wW4.mountpoint :: rest :=
  C4_env_var_merge.2.2 cfgW4 wW4 [("A", "1"), ("B", "2")] (by decide)

/-- C5 counterexample: the configured custom install command exits 1, yet the
orchestrator neither propagates a failure nor aborts: the agent command still
runs and provision returns true. -/
theorem C5_counterexample :
    Event.monitorCmd (Cmd.shell "make install-puppet") ∈ (provision cfgC5 wC5).1 ∧
    (wC5.cmdResult (Cmd.shell "make install-puppet")).status_code = 1 ∧
    Event.monitorCmd (agentCommand cfgC5 wC5) ∈ (provision cfgC5 wC5).1 ∧
    (provision cfgC5 wC5).2 = Except.ok true := by
  refine ⟨by decide, by rfl, by decide, by rfl⟩

/-- C5 (amended): install command outcomes are ignored.  The run depends on
the command-result oracle only through the agent command (replacing the
results of every other command, the install commands included, changes
nothing), and whenever provision returns a boolean at all the agent command
was executed. -/
theorem C5_install_exit_ignored :
    (∀ (cfg : PuppetConfig) (w : World) (f : Cmd → PopenResult),
      f (agentCommand cfg w) = w.cmdResult (agentCommand cfg w) →
      provision cfg { w with cmdResult := f } = provision cfg w) ∧
    (∀ (cfg : PuppetConfig) (w : World) (b : Bool),
      (provision cfg w).2 = Except.ok b →
      Event.monitorCmd (agentCommand cfg w) ∈ (provision cfg w).1) := by
  constructor
  · intro cfg w f hf
    have h1 : (provision cfg { w with cmdResult := f }).1 = (provision cfg w).1 := by
      by_cases henv : envParseOk cfg = true
      · rw [provision_of_envOk cfg { w with cmdResult := f } henv,
          provision_of_envOk cfg w henv]
        cases hm : decide_puppet_run_mode w
        · rw [show decide_puppet_run_mode { w with cmdResult := f } = RunMode.apply from hm]
          rfl
        · rw [show decide_puppet_run_mode { w with cmdResult := f } = RunMode.master from hm]
          dsimp only
          rw [chroot_block_fst_master, chroot_block_fst_master]
          cases hrm : w.rmtreeOk <;> rfl
      · have henv2 : envParseOk cfg = false := by
          cases h : envParseOk cfg
          · rfl
          · exact absurd h henv
        rw [provision_of_envBad cfg { w with cmdResult := f } henv2,
          provision_of_envBad cfg w henv2]
        cases hm : decide_puppet_run_mode w
        · rw [show decide_puppet_run_mode { w with cmdResult := f } = RunMode.apply from hm]
          rfl
        · rw [show decide_puppet_run_mode { w with cmdResult := f } = RunMode.master from hm]
          rfl
    have h2 : (provision cfg { w with cmdResult := f }).2 = (provision cfg w).2 := by
      by_cases henv : envParseOk cfg = true
      · rw [provision_of_envOk cfg { w with cmdResult := f } henv,
          provision_of_envOk cfg w henv]
        cases hm : decide_puppet_run_mode w
        · rw [show decide_puppet_run_mode { w with cmdResult := f } = RunMode.apply from hm]
          rw [chroot_block_snd_apply, chroot_block_snd_apply]
          rw [agentCommand_apply cfg w hm] at hf
          exact congrArg (fun r => Except.ok (inSuccessCodes r.status_code)) hf
        · rw [show decide_puppet_run_mode { w with cmdResult := f } = RunMode.master from hm]
          rw [chroot_block_snd_master, chroot_block_snd_master]
          rw [agentCommand_master cfg w hm] at hf
          cases hrm : w.rmtreeOk
          · rfl
          · congr 1
            exact congrArg (fun r => Except.ok (inSuccessCodes r.status_code)) hf
      · have henv2 : envParseOk cfg = false := by
          cases h : envParseOk cfg
          · rfl
          · exact absurd h henv
        rw [provision_of_envBad cfg { w with cmdResult := f } henv2,
          provision_of_envBad cfg w henv2]
    exact Prod.ext h1 h2
  · intro cfg w b h
    have henv : envParseOk cfg = true := by
      cases he : envParseOk cfg
      · rw [provision_of_envBad cfg w he] at h
        exact absurd h (by simp)
      · rfl
    rw [provision_of_envOk cfg w henv]
    cases hm : decide_puppet_run_mode w
    · rw [agentCommand_apply cfg w hm, chroot_block_fst_apply]
      simp
    · rw [agentCommand_master cfg w hm, chroot_block_fst_master]
      simp

/-- C5 witness: replacing every non-agent command result leaves the run
unchanged, and the concrete run executed its agent command. -/
theorem C5_install_exit_ignored_witness :
    provision cfgC5 { wC5 with cmdResult := fC5 } = provision cfgC5 wC5 ∧
    Event.monitorCmd (agentCommand cfgC5 wC5) ∈ (provision cfgC5 wC5).1 :=
  ⟨C5_install_exit_ignored.1 cfgC5 wC5 fC5 (by rfl),
   C5_install_exit_ignored.2 cfgC5 wC5 true (by rfl)⟩

/-- C3 counterexample: in this completed master-mode run the certificate and
private-key directory removals happen strictly BEFORE the scope-release
event, not in a transition after the scope has been released. -/
theorem C3_counterexample :
    Event.rmtree "/var/lib/puppet/ssl/certs" ∈ (provision cfgC3 wC3).1 ∧
    Event.exitChroot ∈ (provision cfgC3 wC3).1 ∧
    ((provision cfgC3 wC3).1.findIdx Event.isRmtree
      < (provision cfgC3 wC3).1.findIdx Event.isExitChroot) := by
  refine ⟨by decide, by decide, by decide⟩

/-- C3 (amended): in master mode the certificate and private-key directories
are removed INSIDE the isolated scope, between the chroot entry and the
chroot release (immediately before the release in the completed run); a
failure of the removal propagates as an error outcome rather than being
masked. -/
theorem C3_cleanup_inside_scope (cfg : PuppetConfig) (w : World)
    (hm : decide_puppet_run_mode w = RunMode.master)
    (henv : envParseOk cfg = true) :
    (w.rmtreeOk = true →
      ∃ pre, (provision cfg w).1 =
        pre ++ [Event.rmtree (getConfigValue cfg.puppet_certs_dir ""),
                Event.rmtree (getConfigValue cfg.puppet_private_keys_dir ""),
                Event.exitChroot] ∧
        Event.enterChroot w.mountpoint ∈ pre) ∧
    (w.rmtreeOk = false →
      (provision cfg w).2 = Except.error PyError.osError) := by
  constructor
  · intro hrm
    rw [provision_of_envOk cfg w henv, hm, chroot_block_fst_master]
    refine ⟨(pre_chroot_block cfg w RunMode.master).1 ++ envEventsOf cfg
        ++ [Event.enterChroot w.mountpoint] ++ install_puppet cfg w
        ++ [Event.monitorCmd (puppet_agent (getConfigValue cfg.puppet_args "") w.packageArg
              (getConfigValue cfg.puppet_master w.hostname))], ?_, ?_⟩
    · simp [hrm, rm_puppet_certs_dirs_events, List.append_assoc]
    · simp
  · intro hrm
    rw [provision_snd, if_pos henv, if_pos ⟨hm, hrm⟩]

/-- C3 witness: the concrete completed master run has both removals followed
directly by the scope release, with the chroot entry before them. -/
theorem C3_cleanup_inside_scope_witness :
    ∃ pre, (provision cfgC3 wC3).1 =
      pre ++ [Event.rmtree "/var/lib/puppet/ssl/certs",
              Event.rmtree "/var/lib/puppet/ssl/private_keys",
              Event.exitChroot] ∧
      Event.enterChroot "/mnt" ∈ pre :=
  (C3_cleanup_inside_scope cfgC3 wC3 (by rfl) (by rfl)).1 (by rfl)

/-- C10: in master mode, on every run in which the agent command completes,
the certificate and private-key directories are removed immediately after
the agent command returns and before its exit code is interpreted: the two
removal events directly follow the agent command event, and they are present
even when the code is classified FAILURE and provision returns false. -/
theorem C10_removal_precedes_classification (cfg : PuppetConfig) (w : World)
    (hm : decide_puppet_run_mode w = RunMode.master)
    (henv : envParseOk cfg = true) (hrm : w.rmtreeOk = true) :
    (∃ pre post, (provision cfg w).1 =
        pre ++ [Event.monitorCmd (agentCommand cfg w),
                Event.rmtree (getConfigValue cfg.puppet_certs_dir ""),
                Event.rmtree (getConfigValue cfg.puppet_private_keys_dir "")] ++ post) ∧
    (inSuccessCodes (monitor_command w (agentCommand cfg w)).status_code = false →
      (provision cfg w).2 = Except.ok false ∧
      Event.rmtree (getConfigValue cfg.puppet_certs_dir "") ∈ (provision cfg w).1) := by
  constructor
  · rw [provision_of_envOk cfg w henv, hm, chroot_block_fst_master,
      agentCommand_master cfg w hm]
    refine ⟨(pre_chroot_block cfg w RunMode.master).1 ++ envEventsOf cfg
        ++ [Event.enterChroot w.mountpoint] ++ install_puppet cfg w,
      [Event.exitChroot], ?_⟩
    simp [hrm, rm_puppet_certs_dirs_events, List.append_assoc]
  · intro hcode
    constructor
    · rw [provision_snd, if_pos henv, if_neg (by simp [hrm]), hcode]
    · rw [provision_of_envOk cfg w henv, hm, chroot_block_fst_master]
      simp [hrm, rm_puppet_certs_dirs_events]

/-- C10 witness: the concrete master run with agent exit 4 returns false yet
contains the agent command immediately followed by both removals. -/
theorem C10_removal_precedes_classification_witness :
    (∃ pre post, (provision cfgC3 wC10).1 =
        pre ++ [Event.monitorCmd (agentCommand cfgC3 wC10),
                Event.rmtree "/var/lib/puppet/ssl/certs",
                Event.rmtree "/var/lib/puppet/ssl/private_keys"] ++ post) ∧
    ((provision cfgC3 wC10).2 = Except.ok false ∧
      Event.rmtree "/var/lib/puppet/ssl/certs" ∈ (provision cfgC3 wC10).1) :=
  ⟨(C10_removal_precedes_classification cfgC3 wC10 (by rfl) (by rfl) (by rfl)).1,
   (C10_removal_precedes_classification cfgC3 wC10 (by rfl) (by rfl) (by rfl)).2 (by rfl)⟩

/-- Helper: pre-chroot events of a master run are certificate-stager events. -/
lemma all_pre_master (cfg : PuppetConfig) (w : World) (P : Event → Bool)
    (h1 : ∀ s, P (Event.mkdirP s) = true)
    (h2 : ∀ c, P (Event.monitorCmd c) = true)
    (h3 : ∀ s t, P (Event.copyFile s t) = true) :
    ((pre_chroot_block cfg w RunMode.master).1).all P = true := by
  unfold pre_chroot_block
  simpa using all_set_up_puppet_certs cfg w w.packageArg P h1 h2 h3

/-- Helper: pre-chroot events of an apply run are manifest-stager events. -/
lemma all_pre_apply (cfg : PuppetConfig) (w : World) (P : Event → Bool)
    (h1 : ∀ s, P (Event.mkdirP s) = true)
    (h4 : ∀ s t, P (Event.copy2 s t) = true)
    (h5 : ∀ s t, P (Event.extractAll s t) = true) :
    ((pre_chroot_block cfg w RunMode.apply).1).all P = true := by
  unfold pre_chroot_block
  by_cases hC : getConfigValue cfg.puppet_hieradata "" = "" <;>
    simp [hC, List.all_append, all_set_up_puppet_manifests w w.packageArg P h1 h4 h5,
      all_set_up_hieradata w _ P h1 h5]

/-- Helper: a predicate holding on every event kind a master run can emit
holds on the whole master trace. -/
lemma all_provision_master (cfg : PuppetConfig) (w : World) (P : Event → Bool)
    (hm : decide_puppet_run_mode w = RunMode.master)
    (h1 : ∀ s, P (Event.mkdirP s) = true)
    (h2 : ∀ c, P (Event.monitorCmd c) = true)
    (h3 : ∀ s t, P (Event.copyFile s t) = true)
    (hy : P Event.yumCleanMetadata = true)
    (hr : ∀ s, P (Event.rmtree s) = true)
    (he : ∀ ps, P (Event.envUpdate ps) = true)
    (hen : ∀ s, P (Event.enterChroot s) = true)
    (hex : P Event.exitChroot = true) :
    ((provision cfg w).1).all P = true := by
  by_cases henv : envParseOk cfg = true
  · rw [provision_of_envOk cfg w henv, hm]
    rw [List.all_append, List.all_append, List.all_append, List.all_append]
    rw [Bool.and_eq_true, Bool.and_eq_true, Bool.and_eq_true, Bool.and_eq_true]
    refine ⟨⟨⟨⟨?_, ?_⟩, ?_⟩, ?_⟩, ?_⟩
    · exact all_pre_master cfg w P h1 h2 h3
    · exact all_envEventsOf cfg P he
    · simp [hen]
    · exact all_chroot_block cfg w _ _ P h2 hy hr
    · simp [hex]
  · have henv2 : envParseOk cfg = false := by
      cases h : envParseOk cfg
      · rfl
      · exact absurd h henv
    rw [provision_of_envBad cfg w henv2, hm]
    exact all_pre_master cfg w P h1 h2 h3

/-- Helper: a predicate holding on every event kind an apply run can emit
holds on the whole apply trace. -/
lemma all_provision_apply (cfg : PuppetConfig) (w : World) (P : Event → Bool)
    (hm : decide_puppet_run_mode w = RunMode.apply)
    (h1 : ∀ s, P (Event.mkdirP s) = true)
    (h2 : ∀ c, P (Event.monitorCmd c) = true)
    (h4 : ∀ s t, P (Event.copy2 s t) = true)
    (h5 : ∀ s t, P (Event.extractAll s t) = true)
    (hy : P Event.yumCleanMetadata = true)
    (hr : ∀ s, P (Event.rmtree s) = true)
    (he : ∀ ps, P (Event.envUpdate ps) = true)
    (hen : ∀ s, P (Event.enterChroot s) = true)
    (hex : P Event.exitChroot = true) :
    ((provision cfg w).1).all P = true := by
  by_cases henv : envParseOk cfg = true
  · rw [provision_of_envOk cfg w henv, hm]
    rw [List.all_append, List.all_append, List.all_append, List.all_append]
    rw [Bool.and_eq_true, Bool.and_eq_true, Bool.and_eq_true, Bool.and_eq_true]
    refine ⟨⟨⟨⟨?_, ?_⟩, ?_⟩, ?_⟩, ?_⟩
    · exact all_pre_apply cfg w P h1 h4 h5
    · exact all_envEventsOf cfg P he
    · simp [hen]
    · exact all_chroot_block cfg w _ _ P h2 hy hr
    · simp [hex]
  · have henv2 : envParseOk cfg = false := by
      cases h : envParseOk cfg
      · rfl
      · exact absurd h henv
    rw [provision_of_envBad cfg w henv2, hm]
    exact all_pre_apply cfg w P h1 h4 h5

/-- C6: on every invocation exactly one of the certificate stager and the
manifest stager runs, chosen solely by the decided run mode (master selects
certificates, apply selects manifests, and the other stager leaves no event
in the whole trace); the chosen stager is a prefix of the trace, and whenever
the isolated scope is entered the trace is the stager events, then only
environment updates, then the chroot entry, then the installer commands,
then the agent command: staging completes strictly before the scope entry
and before installer and agent run. -/
theorem C6_single_stager_before_scope (cfg : PuppetConfig) (w : World) :
    (∃ rest, (provision cfg w).1 = stagerEvents cfg w ++ rest) ∧
    (decide_puppet_run_mode w = RunMode.master →
      stagerEvents cfg w = set_up_puppet_certs cfg w w.packageArg ∧
      ((provision cfg w).1.all (fun e => !(isManifestStagingEvent e))) = true) ∧
    (decide_puppet_run_mode w = RunMode.apply →
      (∃ hiera, stagerEvents cfg w = (set_up_puppet_manifests w w.packageArg).1 ++ hiera) ∧
      ((provision cfg w).1.all (fun e => !(isCertStagingEvent e))) = true) ∧
    (Event.enterChroot w.mountpoint ∈ (provision cfg w).1 →
      ∃ mid rest, (provision cfg w).1 =
        stagerEvents cfg w ++ mid ++ Event.enterChroot w.mountpoint
          :: (install_puppet cfg w ++ Event.monitorCmd (agentCommand cfg w) :: rest) ∧
        (mid.all fun e => e.isEnvUpdate) = true) := by
  refine ⟨?_, ?_, ?_, ?_⟩
  · by_cases henv : envParseOk cfg = true
    · rw [provision_of_envOk cfg w henv]
      exact ⟨envEventsOf cfg ++ [Event.enterChroot w.mountpoint]
        ++ (chroot_block cfg w (decide_puppet_run_mode w)
              (pre_chroot_block cfg w (decide_puppet_run_mode w)).2).1
        ++ [Event.exitChroot], by simp [stagerEvents, List.append_assoc]⟩
    · have henv2 : envParseOk cfg = false := by
        cases h : envParseOk cfg
        · rfl
        · exact absurd h henv
      rw [provision_of_envBad cfg w henv2]
      exact ⟨[], by simp [stagerEvents]⟩
  · intro hm
    constructor
    · unfold stagerEvents
      rw [hm]
      rfl
    · exact all_provision_master cfg w _ hm (fun s => rfl) (fun c => rfl) (fun s t => rfl)
        rfl (fun s => rfl) (fun ps => rfl) (fun s => rfl) rfl
  · intro hm
    constructor
    · unfold stagerEvents
      rw [hm]
      unfold pre_chroot_block
      by_cases hC : getConfigValue cfg.puppet_hieradata "" = ""
      · exact ⟨[], by simp [hC]⟩
      · exact ⟨set_up_hieradata w (getConfigValue cfg.puppet_hieradata ""), by simp [hC]⟩
    · exact all_provision_apply cfg w _ hm (fun s => rfl) (fun c => rfl) (fun s t => rfl)
        (fun s t => rfl) rfl (fun s => rfl) (fun ps => rfl) (fun s => rfl) rfl
  · intro hmem
    have henv : envParseOk cfg = true := by
      cases h : envParseOk cfg
      · rw [provision_of_envBad cfg w h] at hmem
        have hall := all_pre_chroot_block cfg w (decide_puppet_run_mode w)
          (fun e => !(e.isEnterChroot))
          (fun s => rfl) (fun c => rfl) (fun s t => rfl) (fun s t => rfl) (fun s t => rfl)
        rw [List.all_eq_true] at hall
        simpa [Event.isEnterChroot] using hall _ hmem
      · rfl
    rw [provision_of_envOk cfg w henv]
    cases hm : decide_puppet_run_mode w
    · rw [chroot_block_fst_apply, agentCommand_apply cfg w hm]
      refine ⟨envEventsOf cfg, [Event.exitChroot], ?_, ?_⟩
      · simp [stagerEvents, hm, List.append_assoc]
      · exact all_envEventsOf cfg _ (fun ps => rfl)
    · rw [chroot_block_fst_master, agentCommand_master cfg w hm]
      refine ⟨envEventsOf cfg,
        (if w.rmtreeOk then rm_puppet_certs_dirs_events cfg
         else [Event.rmtree (getConfigValue cfg.puppet_certs_dir "")]) ++ [Event.exitChroot],
        ?_, ?_⟩
      · simp [stagerEvents, hm, List.append_assoc]
      · exact all_envEventsOf cfg _ (fun ps => rfl)

/-- C6 witness: the concrete master run stages certificates first, has no
manifest-staging event anywhere, and enters the scope before installing and
running the agent. -/
theorem C6_single_stager_before_scope_witness :
    (stagerEvents cfgC6 wC6 = set_up_puppet_certs cfgC6 wC6 wC6.packageArg ∧
      ((provision cfgC6 wC6).1.all (fun e => !(isManifestStagingEvent e))) = true) ∧
    (∃ mid rest, (provision cfgC6 wC6).1 =
        stagerEvents cfgC6 wC6 ++ mid ++ Event.enterChroot wC6.mountpoint
          :: (install_puppet cfgC6 wC6 ++ Event.monitorCmd (agentCommand cfgC6 wC6) :: rest) ∧
        (mid.all fun e => e.isEnvUpdate) = true) :=
  ⟨(C6_single_stager_before_scope cfgC6 wC6).2.1 (by rfl),
   (C6_single_stager_before_scope cfgC6 wC6).2.2.2 (by decide)⟩

/-- C7: in apply mode with a single-file manifest input the stager creates
the modules directory under the mountpoint, copies the file preserving
metadata (shutil.copy2) to mountpoint/etc/puppet/modules/basename, and
records the relative path etc/puppet/modules/basename as the apply file,
which is exactly the argument later handed to the agent command. -/
theorem C7_single_file_manifest (cfg : PuppetConfig) (w : World)
    (hmode : decide_puppet_run_mode w = RunMode.apply)
    (htar : w.manifestsIsTarfile = false)
    (hb : startsWithSlash (basename w.packageArg) = false)
    (hmp0 : w.mountpoint ≠ "") (hmp1 : endsWithSlash w.mountpoint = false) :
    (set_up_puppet_manifests w w.packageArg).1 =
      [Event.mkdirP (w.mountpoint ++ "/etc/puppet/modules"),
       Event.copy2 w.packageArg
         (w.mountpoint ++ "/etc/puppet/modules/" ++ basename w.packageArg)] ∧
    (set_up_puppet_manifests w w.packageArg).2
      = "etc/puppet/modules/" ++ basename w.packageArg ∧
    (pre_chroot_block cfg w RunMode.apply).2
      = "etc/puppet/modules/" ++ basename w.packageArg ∧
    agentCommand cfg w = puppet_apply (getConfigValue cfg.puppet_args "")
      ("etc/puppet/modules/" ++ basename w.packageArg) := by
  have hstager : set_up_puppet_manifests w w.packageArg =
      ([Event.mkdirP (w.mountpoint ++ "/etc/puppet/modules"),
        Event.copy2 w.packageArg
          (w.mountpoint ++ "/etc/puppet/modules/" ++ basename w.packageArg)],
       "etc/puppet/modules/" ++ basename w.packageArg) := by
    unfold set_up_puppet_manifests
    rw [htar]
    rw [join_rel_base (basename w.packageArg) hb,
      join_mp3_base w.mountpoint (basename w.packageArg) hmp0 hmp1 hb,
      join_mp3 w.mountpoint hmp0 hmp1]
    rfl
  have happly : (pre_chroot_block cfg w RunMode.apply).2
      = "etc/puppet/modules/" ++ basename w.packageArg := by
    unfold pre_chroot_block
    by_cases hC : getConfigValue cfg.puppet_hieradata "" = "" <;>
      simp [hC, hstager]
  refine ⟨by rw [hstager], by rw [hstager], happly, ?_⟩
  rw [agentCommand_apply cfg w hmode, happly]

/-- C7 witness: the concrete apply run with the manifest foo.pp stages it at
etc/puppet/modules/foo.pp and passes exactly that path to the agent. -/
theorem C7_single_file_manifest_witness :
    (set_up_puppet_manifests wC7 wC7.packageArg).1 =
      [Event.mkdirP "/mnt/etc/puppet/modules",
       Event.copy2 "foo.pp" "/mnt/etc/puppet/modules/foo.pp"] ∧
    (set_up_puppet_manifests wC7 wC7.packageArg).2 = "etc/puppet/modules/foo.pp" ∧
    (pre_chroot_block cfgC6 wC7 RunMode.apply).2 = "etc/puppet/modules/foo.pp" ∧
    agentCommand cfgC6 wC7 = puppet_apply (getConfigValue cfgC6.puppet_args "")
      "etc/puppet/modules/foo.pp" :=
  C7_single_file_manifest cfgC6 wC7 (by rfl) (by rfl) (by rfl) (by decide) (by rfl)

/-- C8 counterexample: an archive whose only top-level entry is a REGULAR
FILE named modules contains no modules directory, yet the code still
extracts into etc/puppet rather than etc/puppet/modules: the claimed
condition (a modules directory among the top-level entries) is not what the
code tests (any entry named modules). -/
theorem C8_counterexample :
    hasTopLevelModulesDir wC8.tarEntries = false ∧
    (set_up_puppet_manifests wC8 wC8.packageArg).1 =
      [Event.mkdirP "/mnt/etc/puppet", Event.extractAll "modfile.tgz" "/mnt/etc/puppet"] ∧
    ("/mnt/etc/puppet" : String) ≠ "/mnt/etc/puppet/modules" := by
  refine ⟨by rfl, by rfl, by decide⟩

/-- C8 (amended): with a tar archive input the whole archive is extracted
into a single target directory, no apply file is recorded, and the target is
mountpoint/etc/puppet when some archive entry is NAMED modules (whatever its
kind), mountpoint/etc/puppet/modules otherwise. -/
theorem C8_archive_staging (w : World)
    (htar : w.manifestsIsTarfile = true)
    (hmp0 : w.mountpoint ≠ "") (hmp1 : endsWithSlash w.mountpoint = false) :
    (set_up_puppet_manifests w w.packageArg).2 = "" ∧
    ((w.tarEntries.map TarEntry.name).contains "modules" = true →
      (set_up_puppet_manifests w w.packageArg).1 =
        [Event.mkdirP (w.mountpoint ++ "/etc/puppet"),
         Event.extractAll w.packageArg (w.mountpoint ++ "/etc/puppet")]) ∧
    ((w.tarEntries.map TarEntry.name).contains "modules" = false →
      (set_up_puppet_manifests w w.packageArg).1 =
        [Event.mkdirP (w.mountpoint ++ "/etc/puppet/modules"),
         Event.extractAll w.packageArg (w.mountpoint ++ "/etc/puppet/modules")]) := by
  unfold set_up_puppet_manifests
  rw [htar]
  refine ⟨by rfl, ?_, ?_⟩
  · intro hc
    rw [hc, join_mp2 w.mountpoint hmp0 hmp1]
    simp
  · intro hc
    rw [hc, join_mp3 w.mountpoint hmp0 hmp1]
    simp

/-- C8 witness: the concrete archive without a top-level modules entry is
extracted into etc/puppet/modules under the mountpoint and records no apply
file. -/
theorem C8_archive_staging_witness :
    (set_up_puppet_manifests wW8 wW8.packageArg).2 = "" ∧
    (set_up_puppet_manifests wW8 wW8.packageArg).1 =
      [Event.mkdirP "/mnt/etc/puppet/modules",
       Event.extractAll "manifests.tgz" "/mnt/etc/puppet/modules"] :=
  ⟨(C8_archive_staging wW8 (by rfl) (by decide) (by rfl)).1,
   (C8_archive_staging wW8 (by rfl) (by decide) (by rfl)).2.2 (by rfl)⟩

/-- C9: in master mode the stager makes both directories under the
mountpoint; when the host-side certificate file certs_dir/name.pem is not
accessible, certificate generation for the package-argument name runs before
any copy; then the CA certificate, the host certificate and the host private
key are copied (shutil.copy, so the host-side originals persist) from their
host-side paths into the corresponding directories under the mountpoint. -/
theorem C9_cert_staging (cfg : PuppetConfig) (w : World)
    (hcd0 : getConfigValue cfg.puppet_certs_dir "" ≠ "")
    (hcd1 : endsWithSlash (getConfigValue cfg.puppet_certs_dir "") = false)
    (hkd0 : getConfigValue cfg.puppet_private_keys_dir "" ≠ "")
    (hkd1 : endsWithSlash (getConfigValue cfg.puppet_private_keys_dir "") = false)
    (hn0 : w.packageArg ≠ "")
    (hn1 : startsWithSlash w.packageArg = false) :
    set_up_puppet_certs cfg w w.packageArg =
      [Event.mkdirP (w.mountpoint ++ getConfigValue cfg.puppet_certs_dir ""),
       Event.mkdirP (w.mountpoint ++ getConfigValue cfg.puppet_private_keys_dir "")]
      ++ (if w.hostCertAccessible then []
          else [Event.monitorCmd (Cmd.argv ["puppetca", "generate", w.packageArg])])
      ++ [Event.copyFile (getConfigValue cfg.puppet_certs_dir "" ++ "/" ++ "ca.pem")
            (w.mountpoint ++ getConfigValue cfg.puppet_certs_dir ""),
          Event.copyFile
            (getConfigValue cfg.puppet_certs_dir "" ++ "/" ++ (w.packageArg ++ ".pem"))
            (w.mountpoint ++ getConfigValue cfg.puppet_certs_dir ""),
          Event.copyFile
            (getConfigValue cfg.puppet_private_keys_dir "" ++ "/" ++ (w.packageArg ++ ".pem"))
            (w.mountpoint ++ getConfigValue cfg.puppet_private_keys_dir "")] := by
  have hs : startsWithSlash (w.packageArg ++ ".pem") = false := by
    rw [startsWithSlash_append w.packageArg ".pem" hn0]
    exact hn1
  unfold set_up_puppet_certs generate_certificate_cmd
  dsimp only
  rw [joinPath_cons (getConfigValue cfg.puppet_certs_dir "") "ca.pem" rfl hcd0 hcd1,
    joinPath_cons (getConfigValue cfg.puppet_certs_dir "") (w.packageArg ++ ".pem") hs hcd0 hcd1,
    joinPath_cons (getConfigValue cfg.puppet_private_keys_dir "") (w.packageArg ++ ".pem")
      hs hkd0 hkd1]

/-- C9 witness: in the concrete master run with an inaccessible host
certificate the generation command runs before the three copies. -/
theorem C9_cert_staging_witness :
    set_up_puppet_certs cfgC9 wC9 wC9.packageArg =
      [Event.mkdirP "/mnt/var/lib/puppet/ssl/certs",
       Event.mkdirP "/mnt/var/lib/puppet/ssl/private_keys",
       Event.monitorCmd (Cmd.argv ["puppetca", "generate", "node1"]),
       Event.copyFile "/var/lib/puppet/ssl/certs/ca.pem" "/mnt/var/lib/puppet/ssl/certs",
       Event.copyFile "/var/lib/puppet/ssl/certs/node1.pem" "/mnt/var/lib/puppet/ssl/certs",
       Event.copyFile "/var/lib/puppet/ssl/private_keys/node1.pem"
         "/mnt/var/lib/puppet/ssl/private_keys"] :=
  C9_cert_staging cfgC9 wC9 (by decide) (by rfl) (by decide) (by rfl) (by decide) (by rfl)


end Puppet
